import Mathlib

/-!
# Verification of the jsonschemabench generation-evaluation pipeline

A shallow embedding of the core of the benchmark: the per-sample generation
lifecycle (schema compilation and decoding with timeouts, crash-isolation
probe), the statistical evaluator (coverage/compliance pools, bootstrap
resampling, metric aggregation), the performance-metric derivation, the
validator's custom format checks, and the openai_compatible engine's schema
adaptation hook.

Python floats are embedded as rationals (every binary float is a dyadic
rational; rounding is not modelled), with an explicit `nan` constructor where
numpy's nan propagation matters.  Fallible Python code is embedded in
`Except PyExn`.  External collaborators (the JSON parser, the jsonschema
validator library, the model backends, the random source) are abstracted as
explicit oracle parameters, exactly at the boundary where the source calls
them.
-/

/-- Python exceptions that the embedded code can raise or observe.
`valueError` also stands for its subclasses such as AddressValueError. -/
inductive PyExn where
  | valueError
  | typeError
  | attributeError
  | indexError
  | schemaError
  | validationError
  | other (msg : String)
deriving DecidableEq, Repr

/-- A Python float: a dyadic rational or nan (embedded as an arbitrary
rational plus a nan marker; float rounding is not modelled). -/
inductive PFloat where
  | num (q : ℚ)
  | nan
deriving DecidableEq, Repr

/-- A float-valued summary statistic that may be irrational (numpy's `std`
takes a square root), embedded over the reals. -/
inductive RFloat where
  | num (x : ℝ)
  | nan

/-- `safe_divide` from src/core/utils.py: returns None if either input is
None or the divisor is zero, otherwise the quotient. -/
def safe_divide : Option ℚ → Option ℚ → Option ℚ
  | some a, some b => if b = 0 then none else some (a / b)
  | _, _ => none

/-- `safe_subtract` from src/core/utils.py: returns None if either input is
None, otherwise the difference. -/
def safe_subtract : Option ℚ → Option ℚ → Option ℚ
  | some a, some b => some (a - b)
  | _, _ => none

/-- `safe_min` from src/core/utils.py: the minimum of `a` and `b`, or `a`
when `b` is None. -/
def safe_min (a : ℤ) : Option ℤ → ℤ
  | none => a
  | some b => min a b

/-- `CompileStatusCode` from src/core/types.py. -/
inductive CompileStatusCode where
  | TBD
  | OK
  | UNSUPPORTED_SCHEMA
  | RUNTIME_GRAMMAR_ERROR
  | API_BAD_RESPONSE
  | PROMPT_TOO_LONG
  | COMPILE_TIMEOUT
  | RUNTIME_TIMEOUT
  | UNKOWN_ERROR
deriving DecidableEq, Repr

/-- `DecodingStatusCode` from src/core/types.py. -/
inductive DecodingStatusCode where
  | TBD
  | OK
  | EXCEEDING_MAX_CTX
  | DECODING_TIMEOUT
  | BAD_API_RESPONSE
  | UNKOWN_ERROR
deriving DecidableEq, Repr

/-- `CompileStatus` from src/core/types.py. -/
structure CompileStatus where
  code : CompileStatusCode := .TBD
  message : Option String := none
deriving DecidableEq, Repr

/-- `DecodingStatus` from src/core/types.py. -/
structure DecodingStatus where
  code : DecodingStatusCode := .TBD
  message : Option String := none
deriving DecidableEq, Repr

/-- `TokenUsage` from src/core/types.py (field-wise addable counters). -/
structure TokenUsage where
  input_tokens : ℕ := 0
  output_tokens : ℕ := 0
deriving DecidableEq, Repr

/-- `GenerationMetadata` from src/core/types.py: the optional monotonic-clock
timestamps and the two status objects. -/
structure GenerationMetadata where
  first_token_arrival_time : Option ℚ := none
  grammar_compilation_end_time : Option ℚ := none
  compile_status : CompileStatus := {}
  decoding_status : DecodingStatus := {}
deriving DecidableEq, Repr

/-- `PerfMetrics` from src/core/types.py: per-sample derived latencies, each
optional. -/
structure PerfMetrics where
  ttft : Option ℚ := none
  tpot : Option ℚ := none
  tgt : Option ℚ := none
  gct : Option ℚ := none
  prft : Option ℚ := none
  peak_memory : Option ℚ := none
deriving DecidableEq, Repr

/-- `PerfMetrics.from_timestamps` from src/core/types.py: derives each latency
from timestamp differences through `safe_subtract`/`safe_divide`; `tpot` is
converted to milliseconds and computed only for a positive token count. -/
def PerfMetrics.from_timestamps (start_time : ℚ)
    (grammar_compilation_end_time : Option ℚ)
    (first_token_arrival_time : Option ℚ) (end_time : ℚ)
    (num_output_tokens : ℕ) : PerfMetrics :=
  let ttft := safe_subtract first_token_arrival_time (some start_time)
  let tpot :=
    if 0 < num_output_tokens then
      safe_divide (safe_subtract (some end_time) first_token_arrival_time)
        (safe_subtract (some (num_output_tokens : ℚ)) (some 1))
    else none
  let tgt := safe_subtract (some end_time) (some start_time)
  let gct := safe_subtract grammar_compilation_end_time (some start_time)
  let prft := safe_subtract first_token_arrival_time grammar_compilation_end_time
  { ttft := ttft
    tpot := match tpot with
      | some t => some (t * 1000)
      | none => none
    tgt := tgt
    gct := gct
    prft := prft }

/-- A Python JSON value as handled by json.loads and the schema-adaptation
hooks: dicts are insertion-ordered association lists (keys unique in any
value produced by the JSON parser). -/
inductive JVal where
  | obj (entries : List (String × JVal))
  | arr (elems : List JVal)
  | str (s : String)
  | num (q : ℚ)
  | bool (b : Bool)
  | null

/-- First-match lookup in a Python dict, `d[k]` / `d.get(k)`. -/
def jlookup : List (String × JVal) → String → Option JVal
  | [], _ => none
  | (k', v) :: rest, k => if k' = k then some v else jlookup rest k

/-- Python dict assignment `d[k] = v`: updates the value in place when the
key exists (keeping its position), otherwise appends the key at the end. -/
def jset : List (String × JVal) → String → JVal → List (String × JVal)
  | [], k, v => [(k, v)]
  | (k', v') :: rest, k, v =>
    if k' = k then (k', v) :: rest else (k', v') :: jset rest k v

/-- Python truthiness of a JSON value (empty containers, empty strings, zero,
False and None are falsy). -/
def jtruthy : JVal → Bool
  | .obj es => !es.isEmpty
  | .arr l => !l.isEmpty
  | .str s => !(s == "")
  | .num q => !(q == 0)
  | .bool b => b
  | .null => false

/-- Truthiness of an optional value, as in `if schema.get("properties"):`
(a missing key gives None, which is falsy). -/
def jtruthyOpt : Option JVal → Bool
  | none => false
  | some v => jtruthy v

/-- Comparison `a < b` between Python floats: any comparison involving nan
is false. -/
def pf_lt : PFloat → PFloat → Bool
  | .num a, .num b => a < b
  | _, _ => false

/-- Comparison `a > b` between Python floats: any comparison involving nan
is false. -/
def pf_gt : PFloat → PFloat → Bool
  | .num a, .num b => b < a
  | _, _ => false

/-- Float addition; nan absorbs. -/
def pf_add : PFloat → PFloat → PFloat
  | .num a, .num b => .num (a + b)
  | _, _ => .nan

/-- Sum of a list of floats (nan absorbs, as in Python/numpy). -/
def pf_sum (l : List PFloat) : PFloat := l.foldr pf_add (.num 0)

/-- The Python builtin `min` over a non-empty list: keeps the first element
and replaces it whenever a later item compares strictly below it; raises
ValueError on an empty list. -/
def py_min : List PFloat → Except PyExn PFloat
  | [] => .error .valueError
  | x :: xs => .ok (xs.foldl (fun m y => if pf_lt y m then y else m) x)

/-- The Python builtin `max` over a non-empty list: keeps the first element
and replaces it whenever a later item compares strictly above it; raises
ValueError on an empty list. -/
def py_max : List PFloat → Except PyExn PFloat
  | [] => .error .valueError
  | x :: xs => .ok (xs.foldl (fun m y => if pf_gt y m then y else m) x)

/-- `np.mean`: nan for the empty list (numpy warns but does not raise), the
arithmetic mean otherwise, with nan absorbing. -/
def np_mean (l : List PFloat) : PFloat :=
  if l.isEmpty then .nan
  else
    match pf_sum l with
    | .num s => .num (s / l.length)
    | .nan => .nan

/-- The rational entries of a list of floats. -/
def pf_nums (l : List PFloat) : List ℚ :=
  l.filterMap fun x =>
    match x with
    | .num q => some q
    | .nan => none

/-- Whether a list of floats contains nan. -/
def pf_has_nan (l : List PFloat) : Bool :=
  l.any fun x =>
    match x with
    | .num _ => false
    | .nan => true

/-- `np.median`: nan for an empty list or a list containing nan; otherwise
the middle of the sorted values (mean of the two middles for even length). -/
def np_median (l : List PFloat) : PFloat :=
  if l.isEmpty || pf_has_nan l then .nan
  else
    let qs := List.insertionSort (· ≤ ·) (pf_nums l)
    let n := qs.length
    if n % 2 = 1 then .num (qs.getD (n / 2) 0)
    else .num ((qs.getD (n / 2 - 1) 0 + qs.getD (n / 2) 0) / 2)

/-- The population variance used by `np.std` (ddof = 0): nan for an empty
list or a list containing nan. -/
def np_var (l : List PFloat) : PFloat :=
  if l.isEmpty || pf_has_nan l then .nan
  else
    let qs := pf_nums l
    let μ := qs.sum / qs.length
    .num (((qs.map fun q => (q - μ) ^ 2).sum) / qs.length)

/-- `np.std`: the square root of the population variance, real-valued. -/
noncomputable def np_std (l : List PFloat) : RFloat :=
  match np_var l with
  | .num v => .num (Real.sqrt (v : ℝ))
  | .nan => .nan

/-- `Metric` from src/core/types.py: the resampled-statistic distribution and
its summary; all summary fields default to None. -/
structure Metric where
  values : List PFloat := []
  std : Option RFloat := none
  min : Option PFloat := none
  max : Option PFloat := none
  median : Option PFloat := none

/-- The `Metric(values=…, median=np.median(…), min=min(…), max=max(…),
std=np.std(…))` construction used for every metric in `evaluate`
(src/core/evaluator.py): the numpy summaries never raise, while the builtin
`min`/`max` raise ValueError on an empty pool. -/
noncomputable def mk_metric (l : List PFloat) : Except PyExn Metric := do
  let mn ← py_min l
  let mx ← py_max l
  pure { values := l, std := some (np_std l), min := some mn, max := some mx,
         median := some (np_median l) }

/-- `AggregatedPerfMetrics` from src/core/types.py; `evaluate` fills the
first four dimensions and leaves `prft` at its default. -/
structure AggregatedPerfMetrics where
  ttft : Metric := {}
  tpot : Metric := {}
  tgt : Metric := {}
  gct : Metric := {}
  prft : Metric := {}

/-- `random.choices(data, k=len(data))` from `bootstrap`, with the ambient
random source abstracted as a draw oracle: draw `j` selects index
`draw j % n`.  Python raises IndexError when the population is empty and
`k > 0`; with `k = 0` it returns the empty list. -/
def py_choices (draw : ℕ → ℕ) (data : List PFloat) (k : ℕ) :
    Except PyExn (List PFloat) :=
  if h : data.length = 0 then
    if k = 0 then .ok [] else .error .indexError
  else
    .ok ((List.range k).map fun j =>
      data.get ⟨draw j % data.length, Nat.mod_lt _ (Nat.pos_of_ne_zero h)⟩)

/-- `bootstrap` from src/core/utils.py: `n_samples` resamples with
replacement, each of the size of `data`, each reduced by `func`. -/
def bootstrap (oracle : ℕ → ℕ → ℕ) (data : List PFloat)
    (func : List PFloat → PFloat) (n_samples : ℕ := 100) :
    Except PyExn (List PFloat) :=
  (List.range n_samples).mapM fun i => do
    let sample ← py_choices (oracle i) data data.length
    pure (func sample)

/-- The external jsonschema/json collaborators used by the evaluator,
abstracted at the call boundary: the JSON parser, the draft-2020-12
meta-validation, and instance validation (each may raise). -/
structure ValidatorLib where
  loads : String → Except PyExn JVal
  check_schema : JVal → Except PyExn Unit
  validate : JVal → JVal → Except PyExn Unit

/-- `is_json_schema_valid` from src/core/evaluator.py: true when
`check_schema` succeeds, false when it raises SchemaError; any other
exception escapes. -/
def is_json_schema_valid (lib : ValidatorLib) (schema : JVal) :
    Except PyExn Bool :=
  match lib.check_schema schema with
  | .ok _ => .ok true
  | .error .schemaError => .ok false
  | .error e => .error e

/-- `validate_json_schema` from src/core/evaluator.py: false for an invalid
schema, false when the validator raises any exception, true otherwise. -/
def validate_json_schema (lib : ValidatorLib) (inst schema : JVal) :
    Except PyExn Bool := do
  let valid ← is_json_schema_valid lib schema
  if valid then
    match lib.validate schema inst with
    | .ok _ => pure true
    | .error _ => pure false
  else
    pure false

/-- `GenerationOutput` from src/core/types.py, restricted to the fields the
evaluator and the lifecycle touch; the prompt-side fields (`messages`, `id`,
`generated_tokens`) are opaque payload and are not modelled. -/
structure GenerationOutput where
  task : String := ""
  generation : Option String := none
  schema : Option JVal := none
  token_usage : TokenUsage := {}
  perf_metrics : PerfMetrics := {}
  metadata : GenerationMetadata := {}

/-- The per-sample classification loop of `evaluate`
(src/core/evaluator.py lines 64-87): skips samples with an absent schema or
generation, appends the declared-coverage bit (compile status OK), then the
empirical-coverage bit (JSON parses and validates), collecting output-token
counts for fully valid samples.  An exception escaping
`validate_json_schema` aborts the loop. -/
def eval_pools (lib : ValidatorLib) :
    List GenerationOutput → Except PyExn (List ℕ × List ℕ × List ℕ)
  | [] => .ok ([], [], [])
  | g :: rest =>
    match g.schema, g.generation with
    | some schema, some generation =>
      let dc : ℕ := if g.metadata.compile_status.code = .OK then 1 else 0
      match lib.loads generation with
      | .error _ => do
        let (dcs, ecs, ots) ← eval_pools lib rest
        pure (dc :: dcs, 0 :: ecs, ots)
      | .ok obj => do
        let valid ← validate_json_schema lib obj schema
        let (dcs, ecs, ots) ← eval_pools lib rest
        if valid then
          pure (dc :: dcs, 1 :: ecs, g.token_usage.output_tokens :: ots)
        else
          pure (dc :: dcs, 0 :: ecs, ots)
    | _, _ => eval_pools lib rest

/-- The compliance pool (src/core/evaluator.py lines 110-112): the empirical
bits zipped against the declared bits, restricted to declared bit 1. -/
def compliance_pool (ecs dcs : List ℕ) : List ℕ :=
  ((ecs.zip dcs).filter fun p => p.2 == 1).map fun p => p.1

/-- Coverage bits are Python ints; numpy treats them as numbers. -/
def nat_pool (l : List ℕ) : List PFloat := l.map fun n => .num n

/-- One component of the tuple returned by `evaluate`. -/
inductive EvalComponent where
  | metric (m : Metric)
  | perf (p : AggregatedPerfMetrics)

/-- `evaluate` from src/core/evaluator.py: classifies the samples, collects
the raw latency pools, bootstraps the three coverage pools, and returns the
five-element tuple (declared coverage, empirical coverage, compliance,
aggregated perf metrics, output tokens), modelled as a list of components in
source order.  The three bootstrap calls consume the ambient random source,
modelled by indexing the oracle with the call number. -/
noncomputable def evaluate (lib : ValidatorLib) (oracle : ℕ → ℕ → ℕ → ℕ)
    (outputs : List GenerationOutput) : Except PyExn (List EvalComponent) := do
  let (dcl, ecl, otl) ← eval_pools lib outputs
  let ttft_list := outputs.filterMap fun g => (g.perf_metrics.ttft).map PFloat.num
  let tpot_list := outputs.filterMap fun g => (g.perf_metrics.tpot).map PFloat.num
  let tgt_list := outputs.filterMap fun g => (g.perf_metrics.tgt).map PFloat.num
  let gct_list := outputs.filterMap fun g => (g.perf_metrics.gct).map PFloat.num
  let cl := compliance_pool ecl dcl
  let dc_mean_list ← bootstrap (oracle 0) (nat_pool dcl) np_mean
  let ec_mean_list ← bootstrap (oracle 1) (nat_pool ecl) np_mean
  let c_mean_list ← bootstrap (oracle 2) (nat_pool cl) np_mean
  let dc_metric ← mk_metric dc_mean_list
  let ec_metric ← mk_metric ec_mean_list
  let c_metric ← mk_metric c_mean_list
  let ttft_metric ← mk_metric ttft_list
  let tpot_metric ← mk_metric tpot_list
  let tgt_metric ← mk_metric tgt_list
  let gct_metric ← mk_metric gct_list
  let ot_metric ← mk_metric (nat_pool otl)
  pure [.metric dc_metric, .metric ec_metric, .metric c_metric,
        .perf { ttft := ttft_metric, tpot := tpot_metric,
                tgt := tgt_metric, gct := gct_metric },
        .metric ot_metric]

/-- The unpacking `dc, ec, cl, pm, ot, evaluated_outputs = evaluate(...)` at
src/core/bench.py line 96: Python unpacking into six targets raises
ValueError unless the right-hand side has exactly six elements. -/
def bench_unpack_six (r : List EvalComponent) :
    Except PyExn (List EvalComponent) :=
  if r.length = 6 then .ok r else .error .valueError

/-- The samples that are not skipped by the classification loop: schema and
generation both present (spec step 1). -/
def present_samples (outputs : List GenerationOutput) : List GenerationOutput :=
  outputs.filter fun g => g.schema.isSome && g.generation.isSome

/-- The declared-coverage bit of one sample (spec step 2): 1 iff the compile
status is OK. -/
def sample_dc_bit (g : GenerationOutput) : ℕ :=
  if g.metadata.compile_status.code = .OK then 1 else 0

/-- The empirical-coverage bit of one (present) sample, following the spec's
classification steps 3-5: 0 when the generation does not parse, 0 when it
fails validation, 1 otherwise; a validator exception escapes. -/
def sample_ec_bit (lib : ValidatorLib) (g : GenerationOutput) :
    Except PyExn ℕ :=
  match g.schema, g.generation with
  | some schema, some generation =>
    match lib.loads generation with
    | .error _ => .ok 0
    | .ok obj => do
      let valid ← validate_json_schema lib obj schema
      pure (if valid then 1 else 0)
  | _, _ => .ok 0

/-- A trivial validator library for concrete test inputs: everything parses
to the empty object and validates. -/
def lib0 : ValidatorLib :=
  { loads := fun _ => .ok (JVal.obj [])
    check_schema := fun _ => .ok ()
    validate := fun _ _ => .ok () }

/-- A fully successful concrete sample. -/
def out0 : GenerationOutput :=
  { task := "t"
    generation := some "\x7b\x7d"
    schema := some (JVal.obj [])
    token_usage := { output_tokens := 7 }
    perf_metrics := { ttft := some 1, tpot := some 2, tgt := some 3, gct := some 4 }
    metadata := { compile_status := { code := .OK } } }

/-- A concrete sample with an absent schema (skipped by the evaluator). -/
def out1 : GenerationOutput :=
  { task := "t", generation := some "x", schema := none }

/-- A concrete sample whose compile status is still TBD (declared-coverage
bit 0). -/
def out2 : GenerationOutput :=
  { task := "t"
    generation := some "y"
    schema := some (JVal.obj [])
    token_usage := { output_tokens := 5 } }

/-- `ipv4_check` from src/core/evaluator.py: registered through
`format_checker.checks("ipv4")` with no `raises=` argument; the body calls
`IPv4Address(value)` and falls off the end, so it returns Python None.  The
external `IPv4Address` constructor is abstracted by its outcome on the given
value: success for a well-formed address, AddressValueError (a ValueError)
otherwise — and that exception is not caught, so it propagates. -/
def ipv4_check (parse_outcome : Except PyExn Unit) :
    Except PyExn (Option Bool) := do
  let _ ← parse_outcome
  pure none

/-- `ipv6_check` from src/core/evaluator.py: same shape as `ipv4_check`, over
the external `IPv6Address` constructor. -/
def ipv6_check (parse_outcome : Except PyExn Unit) :
    Except PyExn (Option Bool) := do
  let _ ← parse_outcome
  pure none

/-- `uuid_check` from src/core/evaluator.py: same shape as `ipv4_check`, over
the external `UUID` constructor. -/
def uuid_check (parse_outcome : Except PyExn Unit) :
    Except PyExn (Option Bool) := do
  let _ ← parse_outcome
  pure none

/-- Truthiness of a checker's return value as jsonschema's FormatChecker
sees it: a falsy result (in particular None) means the format constraint
fails. -/
def py_truthy_opt_bool : Option Bool → Bool
  | none => false
  | some b => b

/-- `GENERATION_TIMEOUT` from src/core/utils.py (seconds). -/
def GENERATION_TIMEOUT : ℕ := 60

/-- `COMPILATION_TIMEOUT` from src/core/utils.py (seconds). -/
def COMPILATION_TIMEOUT : ℕ := 10

/-- Outcome of a bounded-duration operation run under
`stopit.ThreadingTimeout`: the body completes with a value, raises, or is
interrupted exactly at the timeout (the context manager's TIMED_OUT state). -/
inductive StageOutcome (α : Type) where
  | ok (value : α)
  | exn (msg : String)
  | timeout

/-- Decode-stage observations shared by the xgrammar and huggingface engines:
the timestamps recorded by the TimingLogitsProcessor and, on completion, the
decoded text.  On an exception the recorded timestamps are never read. -/
inductive XgDecode where
  | ok (timestamps : List ℚ) (text : String)
  | exn (msg : String)
  | timeout (timestamps : List ℚ)

/-- Decode-stage observations of the guidance engine's streaming loop: the
clock reading recorded at the first streamed state (absent when the loop ran
zero iterations), and on completion the lookup of "generated_object"
(`.error` for a KeyError). -/
inductive GuidanceDecode where
  | ok (first_token : Option ℚ) (extract : Except Unit String)
  | exn (first_token : Option ℚ) (msg : String)
  | timeout (first_token : Option ℚ)

/-- The external events of one `GuidanceEngine._generate` run
(src/engines/guidance.py): the compile stage (`guidance_json`; the value is
the clock reading recorded at compile end) and the decode stage. -/
structure GuidanceEnv where
  compile : StageOutcome ℚ
  decode : GuidanceDecode

/-- `GuidanceEngine._generate` (src/engines/guidance.py lines 51-128), as a
function of its environment: produces the final metadata, the generation
text, and the output-token count.  The input-token accounting is prompt-side
payload and is not modelled.  On a decode timeout the already-recorded
first-token time is explicitly overwritten with None. -/
def guidance_generate (env : GuidanceEnv) (count_tokens : String → ℕ) :
    GenerationMetadata × String × ℕ :=
  match env.compile with
  | .exn m =>
    ({ compile_status := ⟨.UNSUPPORTED_SCHEMA, some m⟩ }, "", 0)
  | .timeout =>
    ({ compile_status :=
        ⟨.COMPILE_TIMEOUT, some "Schema compilation timed out"⟩ }, "", 0)
  | .ok gce =>
    let md0 : GenerationMetadata :=
      { grammar_compilation_end_time := some gce,
        compile_status := ⟨.OK, none⟩ }
    match env.decode with
    | .timeout _ =>
      ({ md0 with
          decoding_status := ⟨.DECODING_TIMEOUT, some "Generation timed out"⟩,
          first_token_arrival_time := none }, "", 0)
    | .exn fta m =>
      ({ md0 with
          first_token_arrival_time := fta,
          decoding_status := ⟨.UNKOWN_ERROR, some m⟩ }, "", 0)
    | .ok fta extract =>
      match extract with
      | .ok generation =>
        ({ md0 with
            first_token_arrival_time := fta,
            decoding_status := ⟨.OK, none⟩ },
          generation, count_tokens generation)
      | .error _ =>
        ({ md0 with
            first_token_arrival_time := fta,
            decoding_status :=
              ⟨.UNKOWN_ERROR, some "Failed to extract generated object"⟩ },
          "", count_tokens "")

/-- How the child process of the crash-isolation probe terminated. -/
inductive ChildOutcome where
  | exited (code : ℕ)
  | signaled (sig : ℕ)
deriving DecidableEq, Repr

/-- The behaviour of the grammar compiler on a given schema, as observed by
the crash-isolation child process. -/
inductive CompileBehavior where
  | returns (t : ℚ)
  | raises (t : ℚ) (msg : String)
  | hangs
  | crashes (t : ℚ) (sig : ℕ)
deriving DecidableEq, Repr

/-- The child of `XGrammarEngine._check_grammar_safety`
(src/engines/xgrammar.py lines 195-204): installs a SIGALRM handler that
exits with code 2, arms `signal.alarm(timeout)`, and runs the compile step:
exit 0 on success, exit 1 on a caught exception, killed by its own signal on
a native crash; a compile that never returns — or that only finishes at or
after the alarm — is terminated with exit code 2. -/
def child_process (timeout : ℕ) (b : CompileBehavior) : ChildOutcome :=
  match b with
  | .returns t => if t < (timeout : ℚ) then .exited 0 else .exited 2
  | .raises t _ => if t < (timeout : ℚ) then .exited 1 else .exited 2
  | .hangs => .exited 2
  | .crashes t sig => if t < (timeout : ℚ) then .signaled sig else .exited 2

/-- The result dict of `_check_grammar_safety`. -/
structure SafetyCheck where
  success : Bool
  exit_code : Option ℤ := none
  error : Option String := none
deriving DecidableEq, Repr

/-- The parent side of `XGrammarEngine._check_grammar_safety`
(src/engines/xgrammar.py lines 206-221): waits for the child and classifies
its termination (a normal exit is a success exactly for exit code 0; a
signal-killed child reports a negative exit code).  It always returns a
result dict — the parent process itself never fails. -/
def check_grammar_safety (timeout : ℕ) (b : CompileBehavior) : SafetyCheck :=
  match child_process timeout b with
  | .exited code => { success := code == 0, exit_code := some (code : ℤ) }
  | .signaled sig =>
    { success := false,
      error := some ("Process terminated by signal " ++ toString sig),
      exit_code := some (-(sig : ℤ)) }

/-- The external events of one `XGrammarEngine._generate` run
(src/engines/xgrammar.py): the compiler's behaviour (observed by the probe's
child process), the main-thread compile under `stopit`, and the decode
stage. -/
structure XGrammarEnv where
  behavior : CompileBehavior
  compile : StageOutcome ℚ
  decode : XgDecode

/-- `XGrammarEngine._generate` (src/engines/xgrammar.py lines 69-190): runs
the crash-isolation probe with `COMPILATION_TIMEOUT`, classifies any probe
failure as UNSUPPORTED_SCHEMA (exit code 2 — the probe's alarm — gets the
message "Grammar compilation timed out"), then the main compile under
`stopit`, then decoding.  The first recorded timestamp is assigned to
`first_token_arrival_time` before the timeout check, so it survives a decode
timeout. -/
def xgrammar_generate (env : XGrammarEnv) (count_tokens : String → ℕ) :
    GenerationMetadata × String × ℕ :=
  let seg := check_grammar_safety COMPILATION_TIMEOUT env.behavior
  if !seg.success then
    if seg.exit_code = some 2 then
      ({ compile_status :=
          ⟨.UNSUPPORTED_SCHEMA, some "Grammar compilation timed out"⟩ },
        "", 0)
    else
      ({ compile_status :=
          ⟨.UNSUPPORTED_SCHEMA,
            some (seg.error.getD "Unknown error with exit code")⟩ }, "", 0)
  else
    match env.compile with
    | .exn m =>
      ({ compile_status := ⟨.UNSUPPORTED_SCHEMA, some m⟩ }, "", 0)
    | .timeout =>
      ({ compile_status :=
          ⟨.COMPILE_TIMEOUT, some "Grammar compilation timed out"⟩ }, "", 0)
    | .ok gce =>
      let md0 : GenerationMetadata :=
        { grammar_compilation_end_time := some gce,
          compile_status := ⟨.OK, none⟩ }
      match env.decode with
      | .exn m =>
        ({ md0 with decoding_status := ⟨.UNKOWN_ERROR, some m⟩ }, "", 0)
      | .timeout ts =>
        ({ md0 with
            first_token_arrival_time := ts.head?,
            decoding_status :=
              ⟨.DECODING_TIMEOUT, some "Generation timed out"⟩ }, "", 0)
      | .ok ts text =>
        ({ md0 with
            first_token_arrival_time := ts.head?,
            decoding_status := ⟨.OK, none⟩ },
          text, count_tokens text)

/-- The external events of one `HuggingFaceEngine._generate` run
(src/engines/huggingface.py): there is no real compile step — the engine
immediately records `grammar_compilation_end_time` and CompileStatus OK —
followed by the decode stage. -/
structure HuggingFaceEnv where
  gce : ℚ
  decode : XgDecode

/-- `HuggingFaceEngine._generate` (src/engines/huggingface.py lines 54-126):
compile is trivially OK; decoding mirrors xgrammar, including the
assignment of the first recorded timestamp before the timeout check.  The
markdown-fence JSON extraction applied to the decoded text is abstracted as
`extract_json`. -/
def huggingface_generate (env : HuggingFaceEnv) (count_tokens : String → ℕ)
    (extract_json : String → String) : GenerationMetadata × String × ℕ :=
  let md0 : GenerationMetadata :=
    { grammar_compilation_end_time := some env.gce,
      compile_status := ⟨.OK, none⟩ }
  match env.decode with
  | .exn m =>
    ({ md0 with decoding_status := ⟨.UNKOWN_ERROR, some m⟩ }, "", 0)
  | .timeout ts =>
    ({ md0 with
        first_token_arrival_time := ts.head?,
        decoding_status :=
          ⟨.DECODING_TIMEOUT, some "Generation timed out"⟩ }, "", 0)
  | .ok ts text =>
    ({ md0 with
        first_token_arrival_time := ts.head?,
        decoding_status := ⟨.OK, none⟩ },
      extract_json text, count_tokens text)

/-- The `profile_generation` decorator (src/core/profile.py) around the
guidance lifecycle: records wall-clock start and end around the whole run
and derives the per-sample PerfMetrics from the recorded timestamps and the
output-token count. -/
def guidance_generate_profiled (start_t end_t : ℚ)
    (count_tokens : String → ℕ) (env : GuidanceEnv) :
    GenerationMetadata × PerfMetrics :=
  let r := guidance_generate env count_tokens
  (r.1, PerfMetrics.from_timestamps start_t r.1.grammar_compilation_end_time
    r.1.first_token_arrival_time end_t r.2.2)

/-- The `profile_generation` decorator around the xgrammar lifecycle. -/
def xgrammar_generate_profiled (start_t end_t : ℚ)
    (count_tokens : String → ℕ) (env : XGrammarEnv) :
    GenerationMetadata × PerfMetrics :=
  let r := xgrammar_generate env count_tokens
  (r.1, PerfMetrics.from_timestamps start_t r.1.grammar_compilation_end_time
    r.1.first_token_arrival_time end_t r.2.2)

/-- A concrete xgrammar environment whose decode stage times out after two
timestamps were recorded. -/
def xg_env_decode_timeout : XGrammarEnv :=
  { behavior := .returns 1, compile := .ok 2, decode := .timeout [3, 4] }

/-- A concrete xgrammar environment whose compile step never returns. -/
def xg_env_compile_hangs : XGrammarEnv :=
  { behavior := .hangs, compile := .ok 0, decode := .ok [] "" }

/-- A concrete xgrammar environment whose compile step returns after 12
seconds — inside a 15-second alarm, outside the actual 10-second one. -/
def xg_env_compile_12s : XGrammarEnv :=
  { behavior := .returns 12, compile := .ok 0, decode := .ok [] "" }

/-- Claim C8: `PerfMetrics.from_timestamps` is total (it is a Lean function,
so it never raises by construction), every derived field is absent whenever
one of its operands is absent, and `tpot` is absent when the output-token
count is 0 or 1. -/
theorem from_timestamps_total_and_absence_propagates
    (st et : ℚ) (gce fta : Option ℚ) (n : ℕ) :
    (fta = none → (PerfMetrics.from_timestamps st gce fta et n).ttft = none) ∧
    ((fta = none ∨ n = 0 ∨ n = 1) →
      (PerfMetrics.from_timestamps st gce fta et n).tpot = none) ∧
    (gce = none → (PerfMetrics.from_timestamps st gce fta et n).gct = none) ∧
    ((fta = none ∨ gce = none) →
      (PerfMetrics.from_timestamps st gce fta et n).prft = none) := by
  refine ⟨?_, ?_, ?_, ?_⟩
  · intro h; subst h; rfl
  · rintro (h | h | h)
    · subst h
      simp [PerfMetrics.from_timestamps, safe_subtract, safe_divide]
    · subst h
      simp [PerfMetrics.from_timestamps]
    · subst h
      cases fta <;>
        simp [PerfMetrics.from_timestamps, safe_subtract, safe_divide]
  · intro h; subst h
    cases fta <;> rfl
  · rintro (h | h) <;> subst h
    · cases gce <;> rfl
    · cases fta <;> rfl

/-- Witness for C8 at a concrete input: one output token forces an absent
`tpot` even with every timestamp present. -/
theorem from_timestamps_total_and_absence_propagates_witness :
    (PerfMetrics.from_timestamps 0 (some 1) (some 2) 10 1).tpot = none :=
  (from_timestamps_total_and_absence_propagates 0 10 (some 1) (some 2) 1).2.1
    (Or.inr (Or.inr rfl))

/-- Inversion of a successful `Except` bind. -/
theorem except_bind_ok {α β : Type} {x : Except PyExn α}
    {f : α → Except PyExn β} {b : β} (h : (x >>= f) = .ok b) :
    ∃ a, x = .ok a ∧ f a = .ok b := by
  cases x with
  | error e => simp [Bind.bind, Except.bind] at h
  | ok a => exact ⟨a, rfl, by simpa [Bind.bind, Except.bind] using h⟩

/-- Claim C1 (divergence from the spec's contract): `evaluate` returns five
components — declared coverage, empirical coverage, compliance, aggregated
perf metrics, output tokens — with no sixth annotated-outputs component (and
`GenerationMetadata` carries no failure annotation fields at all), so the
six-target unpacking at src/core/bench.py line 96 raises ValueError. -/
theorem evaluate_has_five_components_so_bench_unpack_fails
    (lib : ValidatorLib) (oracle : ℕ → ℕ → ℕ → ℕ)
    (outputs : List GenerationOutput) (r : List EvalComponent)
    (h : evaluate lib oracle outputs = .ok r) :
    r.length = 5 ∧ bench_unpack_six r = .error .valueError := by
  unfold evaluate at h
  obtain ⟨pools, -, h⟩ := except_bind_ok h
  obtain ⟨dcl, ecl, otl⟩ := pools
  simp only [] at h
  obtain ⟨a1, -, h⟩ := except_bind_ok h
  obtain ⟨a2, -, h⟩ := except_bind_ok h
  obtain ⟨a3, -, h⟩ := except_bind_ok h
  obtain ⟨m1, -, h⟩ := except_bind_ok h
  obtain ⟨m2, -, h⟩ := except_bind_ok h
  obtain ⟨m3, -, h⟩ := except_bind_ok h
  obtain ⟨m4, -, h⟩ := except_bind_ok h
  obtain ⟨m5, -, h⟩ := except_bind_ok h
  obtain ⟨m6, -, h⟩ := except_bind_ok h
  obtain ⟨m7, -, h⟩ := except_bind_ok h
  obtain ⟨m8, -, h⟩ := except_bind_ok h
  cases h
  exact ⟨rfl, rfl⟩

/-- Witness for C1: a concrete fully successful batch; `evaluate` yields a
five-element tuple and the bench unpacking fails on it. -/
theorem evaluate_has_five_components_witness :
    ∃ r, evaluate lib0 (fun _ _ _ => 0) [out0] = .ok r ∧
      bench_unpack_six r = .error .valueError := by
  have hok : (evaluate lib0 (fun _ _ _ => 0) [out0]).isOk = true := by
    set_option maxRecDepth 100000 in rfl
  cases h : evaluate lib0 (fun _ _ _ => 0) [out0] with
  | error e => rw [h] at hok; exact Bool.noConfusion hok
  | ok r =>
    exact ⟨r, rfl,
      (evaluate_has_five_components_so_bench_unpack_fails _ _ _ _ h).2⟩

/-- Claim C2 (divergence from the spec): evaluating the empty outputs list
does not return all-absent Metrics — it raises ValueError, because the
builtin `min` is applied to the empty ttft pool. -/
theorem evaluate_empty_list_raises_value_error
    (lib : ValidatorLib) (oracle : ℕ → ℕ → ℕ → ℕ) :
    evaluate lib oracle [] = .error .valueError := by
  set_option maxRecDepth 100000 in rfl

/-- Claim C3: for every output list, each present sample with a non-OK
compile status contributes declared-coverage bit 0 (the declared bits are
exactly the per-sample `sample_dc_bit` values), and the compliance pool is
exactly the empirical-coverage bits of the samples whose declared-coverage
bit is 1. -/
theorem eval_pools_pool_structure (lib : ValidatorLib) :
    ∀ (outputs : List GenerationOutput) (dcs ecs ots : List ℕ),
    eval_pools lib outputs = .ok (dcs, ecs, ots) →
    dcs = (present_samples outputs).map sample_dc_bit ∧
    (present_samples outputs).mapM (sample_ec_bit lib) = .ok ecs ∧
    ((present_samples outputs).filter fun g => sample_dc_bit g == 1).mapM
        (sample_ec_bit lib) = .ok (compliance_pool ecs dcs) := by
  intro outputs
  induction outputs with
  | nil =>
    intro dcs ecs ots h
    simp only [eval_pools, Except.ok.injEq, Prod.mk.injEq] at h
    obtain ⟨h1, h2, h3⟩ := h
    subst h1; subst h2
    exact ⟨rfl, rfl, rfl⟩
  | cons g rest ih =>
    intro dcs ecs ots h
    cases hs : g.schema with
    | none =>
      simp only [eval_pools, hs] at h
      have hp : present_samples (g :: rest) = present_samples rest := by
        simp [present_samples, List.filter_cons, hs]
      rw [hp]
      exact ih dcs ecs ots h
    | some schema =>
      cases hg : g.generation with
      | none =>
        simp only [eval_pools, hs, hg] at h
        have hp : present_samples (g :: rest) = present_samples rest := by
          simp [present_samples, List.filter_cons, hg]
        rw [hp]
        exact ih dcs ecs ots h
      | some generation =>
        have hp : present_samples (g :: rest) = g :: present_samples rest := by
          simp [present_samples, List.filter_cons, hs, hg]
        simp only [eval_pools, hs, hg] at h
        cases hl : lib.loads generation with
        | error e =>
          rw [hl] at h
          obtain ⟨⟨dcs', ecs', ots'⟩, hrest, hstep⟩ := except_bind_ok h
          simp only [pure, Except.pure, Except.ok.injEq, Prod.mk.injEq] at hstep
          obtain ⟨h1, h2, h3⟩ := hstep
          subst h1; subst h2; subst h3
          obtain ⟨ih1, ih2, ih3⟩ := ih _ _ _ hrest
          have hbit : sample_ec_bit lib g = .ok 0 := by
            simp [sample_ec_bit, hs, hg, hl]
          refine ⟨?_, ?_, ?_⟩
          · rw [hp]; simp [sample_dc_bit, ih1]
          · rw [hp, List.mapM_cons, hbit, ih2]; rfl
          · rw [hp]
            by_cases hdc : g.metadata.compile_status.code = CompileStatusCode.OK
            · rw [List.filter_cons_of_pos (by simp [sample_dc_bit, hdc]),
                List.mapM_cons, hbit, ih3]
              simp [compliance_pool, hdc, Bind.bind, Except.bind, pure,
                Except.pure]
            · rw [List.filter_cons_of_neg (by simp [sample_dc_bit, hdc]), ih3]
              simp [compliance_pool, hdc]
        | ok obj =>
          rw [hl] at h
          obtain ⟨valid, hv, h⟩ := except_bind_ok h
          obtain ⟨⟨dcs', ecs', ots'⟩, hrest, hstep⟩ := except_bind_ok h
          obtain ⟨ih1, ih2, ih3⟩ := ih _ _ _ hrest
          cases valid with
          | true =>
            have hbit : sample_ec_bit lib g = .ok 1 := by
              simp [sample_ec_bit, hs, hg, hl, hv, Bind.bind, Except.bind,
                pure, Except.pure]
            rw [if_pos rfl] at hstep
            simp only [pure, Except.pure, Except.ok.injEq,
              Prod.mk.injEq] at hstep
            obtain ⟨h1, h2, h3⟩ := hstep
            subst h1; subst h2; subst h3
            refine ⟨?_, ?_, ?_⟩
            · rw [hp]; simp [sample_dc_bit, ih1]
            · rw [hp, List.mapM_cons, hbit, ih2]; rfl
            · rw [hp]
              by_cases hdc : g.metadata.compile_status.code = CompileStatusCode.OK
              · rw [List.filter_cons_of_pos (by simp [sample_dc_bit, hdc]),
                  List.mapM_cons, hbit, ih3]
                simp [compliance_pool, hdc, Bind.bind, Except.bind, pure,
                  Except.pure]
              · rw [List.filter_cons_of_neg (by simp [sample_dc_bit, hdc]), ih3]
                simp [compliance_pool, hdc]
          | false =>
            have hbit : sample_ec_bit lib g = .ok 0 := by
              simp [sample_ec_bit, hs, hg, hl, hv, Bind.bind, Except.bind,
                pure, Except.pure]
            rw [if_neg (by simp)] at hstep
            simp only [pure, Except.pure, Except.ok.injEq,
              Prod.mk.injEq] at hstep
            obtain ⟨h1, h2, h3⟩ := hstep
            subst h1; subst h2; subst h3
            refine ⟨?_, ?_, ?_⟩
            · rw [hp]; simp [sample_dc_bit, ih1]
            · rw [hp, List.mapM_cons, hbit, ih2]; rfl
            · rw [hp]
              by_cases hdc : g.metadata.compile_status.code = CompileStatusCode.OK
              · rw [List.filter_cons_of_pos (by simp [sample_dc_bit, hdc]),
                  List.mapM_cons, hbit, ih3]
                simp [compliance_pool, hdc, Bind.bind, Except.bind, pure,
                  Except.pure]
              · rw [List.filter_cons_of_neg (by simp [sample_dc_bit, hdc]), ih3]
                simp [compliance_pool, hdc]

/-- Witness for C3 on a concrete batch: one OK-and-valid sample, one skipped
sample, one TBD sample. -/
theorem eval_pools_pool_structure_witness :
    [1, 0] = (present_samples [out0, out1, out2]).map sample_dc_bit ∧
    (present_samples [out0, out1, out2]).mapM (sample_ec_bit lib0) =
      .ok [1, 1] ∧
    ((present_samples [out0, out1, out2]).filter
        fun g => sample_dc_bit g == 1).mapM (sample_ec_bit lib0) =
      .ok (compliance_pool [1, 1] [1, 0]) :=
  eval_pools_pool_structure lib0 [out0, out1, out2] [1, 0] [1, 1] [7, 5] rfl

/-- Summing a constant list of floats. -/
theorem pf_sum_const {l : List PFloat} {c : ℚ} (h : ∀ x ∈ l, x = .num c) :
    pf_sum l = .num (l.length * c) := by
  induction l with
  | nil => simp [pf_sum]
  | cons x xs ih =>
    have hx : x = PFloat.num c := h x (by simp)
    have ih' : pf_sum xs = .num (xs.length * c) :=
      ih fun y hy => h y (by simp [hy])
    have hc : pf_sum (x :: xs) = pf_add x (pf_sum xs) := rfl
    rw [hc, hx, ih']
    simp [pf_add]
    ring

/-- The mean of a non-empty constant list of floats. -/
theorem np_mean_const {l : List PFloat} {c : ℚ} (hne : l ≠ [])
    (h : ∀ x ∈ l, x = .num c) : np_mean l = .num c := by
  have hlen : l.length ≠ 0 := by
    simpa [List.length_eq_zero] using hne
  have hcast : (l.length : ℚ) ≠ 0 := by exact_mod_cast hlen
  rw [np_mean, if_neg (by simp [List.isEmpty_iff, hne]), pf_sum_const h]
  show PFloat.num ((l.length : ℚ) * c / l.length) = PFloat.num c
  congr 1
  field_simp

/-- `getD` on a replicate list within bounds. -/
theorem getD_replicate {n i : ℕ} {c d : ℚ} (h : i < n) :
    (List.replicate n c).getD i d = c := by
  induction n generalizing i with
  | zero => omega
  | succ m ih =>
    cases i with
    | zero => rfl
    | succ j => simpa [List.replicate, List.getD] using ih (by omega)

/-- The rational entries of a constant float list. -/
theorem pf_nums_replicate (n : ℕ) (c : ℚ) :
    pf_nums (List.replicate n (.num c)) = List.replicate n c := by
  induction n with
  | zero => rfl
  | succ m ih => simpa [pf_nums, List.replicate] using ih

/-- A constant float list contains no nan. -/
theorem pf_has_nan_replicate (n : ℕ) (c : ℚ) :
    pf_has_nan (List.replicate n (.num c)) = false := by
  induction n with
  | zero => rfl
  | succ m ih => simpa [pf_has_nan, List.replicate] using ih

/-- Insertion sort fixes a constant list. -/
theorem insertionSort_replicate (n : ℕ) (c : ℚ) :
    List.insertionSort (· ≤ ·) (List.replicate n c) = List.replicate n c :=
  List.Sorted.insertionSort_eq
    ((List.pairwise_replicate).mpr (Or.inr (le_refl c)))

/-- The median of a non-empty constant list of floats. -/
theorem np_median_const {l : List PFloat} {c : ℚ} (hne : l ≠ [])
    (h : ∀ x ∈ l, x = .num c) : np_median l = .num c := by
  have hl : l = List.replicate l.length (.num c) := List.eq_replicate_of_mem h
  have hlen : l.length ≠ 0 := by simpa [List.length_eq_zero] using hne
  rw [np_median, if_neg]
  · rw [hl, pf_nums_replicate, insertionSort_replicate]
    simp only [List.length_replicate]
    by_cases hpar : l.length % 2 = 1
    · rw [if_pos hpar,
        getD_replicate (Nat.div_lt_self (Nat.pos_of_ne_zero hlen) one_lt_two)]
    · rw [if_neg hpar,
        getD_replicate (Nat.div_lt_self (Nat.pos_of_ne_zero hlen) one_lt_two),
        getD_replicate (lt_of_le_of_lt (Nat.sub_le _ _)
          (Nat.div_lt_self (Nat.pos_of_ne_zero hlen) one_lt_two))]
      congr 1
      ring
  · rw [hl, pf_has_nan_replicate]
    simp [List.isEmpty_iff, List.replicate_eq_nil_iff, hlen]

/-- The population variance of a non-empty constant list of floats is 0. -/
theorem np_var_const {l : List PFloat} {c : ℚ} (hne : l ≠ [])
    (h : ∀ x ∈ l, x = .num c) : np_var l = .num 0 := by
  have hl : l = List.replicate l.length (.num c) := List.eq_replicate_of_mem h
  have hlen : l.length ≠ 0 := by simpa [List.length_eq_zero] using hne
  have hcast : (l.length : ℚ) ≠ 0 := by exact_mod_cast hlen
  rw [np_var, if_neg]
  · rw [hl, pf_nums_replicate]
    simp only [List.sum_replicate, List.length_replicate, nsmul_eq_mul,
      List.map_replicate]
    congr 1
    field_simp
  · rw [hl, pf_has_nan_replicate]
    simp [List.isEmpty_iff, List.replicate_eq_nil_iff, hlen]

/-- The standard deviation of a non-empty constant list of floats is 0. -/
theorem np_std_const {l : List PFloat} {c : ℚ} (hne : l ≠ [])
    (h : ∀ x ∈ l, x = .num c) : np_std l = .num 0 := by
  rw [np_std, np_var_const hne h]
  norm_num

/-- The min-fold of the Python builtin over a constant tail. -/
theorem pf_foldl_min_const {c : ℚ} :
    ∀ xs : List PFloat, (∀ y ∈ xs, y = .num c) →
      xs.foldl (fun m y => if pf_lt y m then y else m) (.num c) = .num c := by
  intro xs
  induction xs with
  | nil => intro _; rfl
  | cons y ys ih =>
    intro hxs
    have hy : y = PFloat.num c := hxs y (by simp)
    subst hy
    rw [List.foldl_cons, if_neg (by simp [pf_lt])]
    exact ih fun z hz => hxs z (by simp [hz])

/-- The max-fold of the Python builtin over a constant tail. -/
theorem pf_foldl_max_const {c : ℚ} :
    ∀ xs : List PFloat, (∀ y ∈ xs, y = .num c) →
      xs.foldl (fun m y => if pf_gt y m then y else m) (.num c) = .num c := by
  intro xs
  induction xs with
  | nil => intro _; rfl
  | cons y ys ih =>
    intro hxs
    have hy : y = PFloat.num c := hxs y (by simp)
    subst hy
    rw [List.foldl_cons, if_neg (by simp [pf_gt])]
    exact ih fun z hz => hxs z (by simp [hz])

/-- The builtin min of a non-empty constant list of floats. -/
theorem py_min_const {l : List PFloat} {c : ℚ} (hne : l ≠ [])
    (h : ∀ x ∈ l, x = .num c) : py_min l = .ok (.num c) := by
  cases l with
  | nil => exact absurd rfl hne
  | cons x xs =>
    have hx : x = PFloat.num c := h x (by simp)
    subst hx
    rw [py_min]
    exact congrArg Except.ok
      (pf_foldl_min_const xs fun y hy => h y (by simp [hy]))

/-- The builtin max of a non-empty constant list of floats. -/
theorem py_max_const {l : List PFloat} {c : ℚ} (hne : l ≠ [])
    (h : ∀ x ∈ l, x = .num c) : py_max l = .ok (.num c) := by
  cases l with
  | nil => exact absurd rfl hne
  | cons x xs =>
    have hx : x = PFloat.num c := h x (by simp)
    subst hx
    rw [py_max]
    exact congrArg Except.ok
      (pf_foldl_max_const xs fun y hy => h y (by simp [hy]))

/-- mapM of a constantly-succeeding function. -/
theorem list_mapM_ok_const {α β : Type} (l : List α) (f : α → Except PyExn β)
    (b : β) (h : ∀ a ∈ l, f a = .ok b) :
    l.mapM f = .ok (List.replicate l.length b) := by
  induction l with
  | nil => rfl
  | cons x xs ih =>
    rw [List.mapM_cons, h x (by simp), ih fun a ha => h a (by simp [ha])]
    rfl

/-- Claim C9: bootstrap-resampling a non-empty pool of identical bits (all
equal to a constant `c`, e.g. all 1s or all 0s) yields, for every draw
oracle, a Metric whose median equals that constant and whose standard
deviation is 0. -/
theorem bootstrap_constant_pool_metric (data : List PFloat) (c : ℚ)
    (oracle : ℕ → ℕ → ℕ) (h1 : data ≠ []) (h2 : ∀ x ∈ data, x = .num c) :
    ∃ means m, bootstrap oracle data np_mean 100 = .ok means ∧
      mk_metric means = .ok m ∧
      m.median = some (.num c) ∧ m.std = some (.num 0) := by
  have hlen : data.length ≠ 0 := by simpa [List.length_eq_zero] using h1
  have hone : ∀ i, (do
      let sample ← py_choices (oracle i) data data.length
      pure (np_mean sample) : Except PyExn PFloat) = .ok (.num c) := by
    intro i
    have hch : py_choices (oracle i) data data.length =
        .ok ((List.range data.length).map fun j =>
          data.get ⟨oracle i j % data.length,
            Nat.mod_lt _ (Nat.pos_of_ne_zero hlen)⟩) := by
      unfold py_choices
      rw [dif_neg hlen]
    rw [hch]
    have hsample : np_mean ((List.range data.length).map fun j =>
        data.get ⟨oracle i j % data.length,
          Nat.mod_lt _ (Nat.pos_of_ne_zero hlen)⟩) = .num c := by
      apply np_mean_const
      · intro hcon
        rw [List.map_eq_nil, List.range_eq_nil] at hcon
        exact hlen hcon
      · intro y hy
        obtain ⟨j, -, rfl⟩ := List.mem_map.mp hy
        exact h2 _ (List.get_mem _ _ _)
    simp only [Bind.bind, Except.bind]
    rw [hsample]
    rfl
  have hboot : bootstrap oracle data np_mean 100 =
      .ok (List.replicate 100 (PFloat.num c)) := by
    rw [bootstrap]
    have hmm := list_mapM_ok_const (List.range 100)
      (fun i => do
        let sample ← py_choices (oracle i) data data.length
        pure (np_mean sample))
      (PFloat.num c) (fun a _ => hone a)
    simpa [List.length_range] using hmm
  have hrepne : List.replicate 100 (PFloat.num c) ≠ [] := by simp
  have hrepc : ∀ x ∈ List.replicate 100 (PFloat.num c), x = PFloat.num c :=
    fun x hx => List.eq_of_mem_replicate hx
  have hmin := py_min_const hrepne hrepc
  have hmax := py_max_const hrepne hrepc
  refine ⟨List.replicate 100 (PFloat.num c),
    { values := List.replicate 100 (PFloat.num c),
      std := some (np_std (List.replicate 100 (PFloat.num c))),
      min := some (.num c), max := some (.num c),
      median := some (np_median (List.replicate 100 (PFloat.num c))) },
    hboot, ?_, ?_, ?_⟩
  · rw [mk_metric, hmin, hmax]
    rfl
  · show some (np_median (List.replicate 100 (PFloat.num c))) =
      some (PFloat.num c)
    rw [np_median_const hrepne hrepc]
  · show some (np_std (List.replicate 100 (PFloat.num c))) =
      some (RFloat.num 0)
    rw [np_std_const hrepne hrepc]

/-- Witness for C9 at a concrete all-1s pool of size 3 and a constant draw
oracle. -/
theorem bootstrap_constant_pool_metric_witness :
    ∃ means m,
      bootstrap (fun _ _ => 0) [.num 1, .num 1, .num 1] np_mean 100 =
        .ok means ∧
      mk_metric means = .ok m ∧
      m.median = some (.num 1) ∧ m.std = some (.num 0) :=
  bootstrap_constant_pool_metric [.num 1, .num 1, .num 1] 1 (fun _ _ => 0)
    (by decide) (by decide)

/-- Claim C6 (divergence from the spec): the three custom format checks are
not total predicates.  On malformed input the uncaught constructor exception
propagates (nothing returns false), and on well-formed input each check
returns Python None — a falsy value, so the FormatChecker rejects even a
conforming instance. -/
theorem format_checks_not_total_predicates :
    (∀ e, ipv4_check (.error e) = .error e) ∧
    (∀ e, ipv6_check (.error e) = .error e) ∧
    (∀ e, uuid_check (.error e) = .error e) ∧
    ipv4_check (.ok ()) = .ok none ∧
    ipv6_check (.ok ()) = .ok none ∧
    uuid_check (.ok ()) = .ok none ∧
    py_truthy_opt_bool none = false :=
  ⟨fun _ => rfl, fun _ => rfl, fun _ => rfl, rfl, rfl, rfl, rfl⟩

/-- Counterexample to C4 as stated: in the xgrammar engine a decode timeout
does not leave `first_token_arrival_time` at None when a first token had
been recorded — the recorded timestamp survives. -/
theorem decode_timeout_keeps_first_token_counterexample :
    ¬ ((xgrammar_generate xg_env_decode_timeout
          (fun _ => 0)).1.decoding_status.code = .DECODING_TIMEOUT →
        (xgrammar_generate xg_env_decode_timeout
          (fun _ => 0)).1.first_token_arrival_time = none) := by
  decide

/-- Claim C4 as amended: on a decode timeout the guidance engine unsets
`first_token_arrival_time`, while the xgrammar and huggingface engines
assign the first recorded timestamp to it even on timeout. -/
theorem decode_timeout_first_token_by_engine :
    (∀ (env : GuidanceEnv) (ct : String → ℕ) (gce : ℚ) (fta : Option ℚ),
      env.compile = .ok gce → env.decode = .timeout fta →
      (guidance_generate env ct).1.first_token_arrival_time = none ∧
      (guidance_generate env ct).1.decoding_status.code =
        .DECODING_TIMEOUT) ∧
    (∀ (env : XGrammarEnv) (ct : String → ℕ) (gce : ℚ) (ts : List ℚ),
      (check_grammar_safety COMPILATION_TIMEOUT env.behavior).success =
        true →
      env.compile = .ok gce → env.decode = .timeout ts →
      (xgrammar_generate env ct).1.first_token_arrival_time = ts.head? ∧
      (xgrammar_generate env ct).1.decoding_status.code =
        .DECODING_TIMEOUT) ∧
    (∀ (env : HuggingFaceEnv) (ct : String → ℕ) (ej : String → String)
        (ts : List ℚ),
      env.decode = .timeout ts →
      (huggingface_generate env ct ej).1.first_token_arrival_time =
        ts.head? ∧
      (huggingface_generate env ct ej).1.decoding_status.code =
        .DECODING_TIMEOUT) := by
  refine ⟨?_, ?_, ?_⟩
  · rintro ⟨c, d⟩ ct gce fta hc hd
    simp only at hc hd
    subst hc; subst hd
    exact ⟨rfl, rfl⟩
  · rintro ⟨b, c, d⟩ ct gce ts hs hc hd
    simp only at hs hc hd
    subst hc; subst hd
    simp [xgrammar_generate, hs]
  · rintro ⟨g, d⟩ ct ej ts hd
    simp only at hd
    subst hd
    exact ⟨rfl, rfl⟩

/-- Witness for the amended C4 at concrete environments of all three
engines. -/
theorem decode_timeout_first_token_by_engine_witness :
    (guidance_generate { compile := .ok 2, decode := .timeout (some 3) }
        (fun _ => 0)).1.first_token_arrival_time = none ∧
    (xgrammar_generate xg_env_decode_timeout
        (fun _ => 0)).1.first_token_arrival_time = some 3 ∧
    (huggingface_generate { gce := 1, decode := .timeout [5] }
        (fun _ => 0) id).1.first_token_arrival_time = some 5 := by
  refine ⟨(decode_timeout_first_token_by_engine.1 _ (fun _ => 0) 2 (some 3)
    rfl rfl).1, ?_, ?_⟩
  · exact (decode_timeout_first_token_by_engine.2.1 xg_env_decode_timeout
      (fun _ => 0) 2 [3, 4] (by decide) rfl rfl).1
  · exact (decode_timeout_first_token_by_engine.2.2 _ (fun _ => 0) id [5]
      rfl).1

/-- Counterexample to C5 as stated: in the xgrammar engine a compile step
that never returns is caught by the crash-isolation probe (the child's
alarm exits with code 2) and classified UNSUPPORTED_SCHEMA, not
COMPILE_TIMEOUT. -/
theorem never_returning_compile_counterexample :
    (xgrammar_generate xg_env_compile_hangs
        (fun _ => 0)).1.compile_status.code = .UNSUPPORTED_SCHEMA ∧
    ¬ (xgrammar_generate xg_env_compile_hangs
        (fun _ => 0)).1.compile_status.code = .COMPILE_TIMEOUT := by
  decide

/-- Claim C5 as amended: a failed or timed-out compile stage terminates the
lifecycle early.  In guidance a stopit timeout yields COMPILE_TIMEOUT and a
caught failure UNSUPPORTED_SCHEMA; in xgrammar a never-returning compile is
classified UNSUPPORTED_SCHEMA by the probe, and a main-compile stopit
timeout (after a successful probe) yields COMPILE_TIMEOUT.  In every case
the decode stage is never entered — the result does not depend on the
decode environment, DecodingStatus stays TBD — and the timestamps and the
later-stage perf metrics (ttft, gct, prft, tpot) are all absent. -/
theorem compile_failure_terminates_early :
    (∀ (st et : ℚ) (ct : String → ℕ) (env : GuidanceEnv),
      env.compile = .timeout →
      (guidance_generate_profiled st et ct env).1.compile_status.code =
        .COMPILE_TIMEOUT ∧
      (guidance_generate_profiled st et ct env).1.decoding_status.code =
        .TBD ∧
      (guidance_generate_profiled st et ct
        env).1.first_token_arrival_time = none ∧
      (guidance_generate_profiled st et ct
        env).1.grammar_compilation_end_time = none ∧
      (guidance_generate_profiled st et ct env).2.ttft = none ∧
      (guidance_generate_profiled st et ct env).2.gct = none ∧
      (guidance_generate_profiled st et ct env).2.prft = none ∧
      (guidance_generate_profiled st et ct env).2.tpot = none) ∧
    (∀ (st et : ℚ) (ct : String → ℕ) (env : GuidanceEnv) (m : String),
      env.compile = .exn m →
      (guidance_generate_profiled st et ct env).1.compile_status.code =
        .UNSUPPORTED_SCHEMA ∧
      (guidance_generate_profiled st et ct env).1.decoding_status.code =
        .TBD ∧
      (guidance_generate_profiled st et ct
        env).1.first_token_arrival_time = none ∧
      (guidance_generate_profiled st et ct env).2.ttft = none ∧
      (guidance_generate_profiled st et ct env).2.gct = none) ∧
    (∀ (ct : String → ℕ) (c : StageOutcome ℚ) (d d' : GuidanceDecode),
      (∀ gce, c ≠ .ok gce) →
      guidance_generate { compile := c, decode := d } ct =
        guidance_generate { compile := c, decode := d' } ct) ∧
    (∀ (st et : ℚ) (ct : String → ℕ) (env : XGrammarEnv),
      env.behavior = .hangs →
      (xgrammar_generate_profiled st et ct env).1.compile_status.code =
        .UNSUPPORTED_SCHEMA ∧
      (xgrammar_generate_profiled st et ct env).1.decoding_status.code =
        .TBD ∧
      (xgrammar_generate_profiled st et ct
        env).1.first_token_arrival_time = none ∧
      (xgrammar_generate_profiled st et ct env).2.ttft = none ∧
      (xgrammar_generate_profiled st et ct env).2.gct = none ∧
      (xgrammar_generate_profiled st et ct env).2.prft = none ∧
      (xgrammar_generate_profiled st et ct env).2.tpot = none) ∧
    (∀ (st et : ℚ) (ct : String → ℕ) (env : XGrammarEnv),
      (check_grammar_safety COMPILATION_TIMEOUT env.behavior).success =
        true →
      env.compile = .timeout →
      (xgrammar_generate_profiled st et ct env).1.compile_status.code =
        .COMPILE_TIMEOUT ∧
      (xgrammar_generate_profiled st et ct env).1.decoding_status.code =
        .TBD ∧
      (xgrammar_generate_profiled st et ct
        env).1.first_token_arrival_time = none ∧
      (xgrammar_generate_profiled st et ct env).2.ttft = none ∧
      (xgrammar_generate_profiled st et ct env).2.gct = none) := by
  refine ⟨?_, ?_, ?_, ?_, ?_⟩
  · rintro st et ct ⟨c, d⟩ hc
    simp only at hc
    subst hc
    exact ⟨rfl, rfl, rfl, rfl, rfl, rfl, rfl, rfl⟩
  · rintro st et ct ⟨c, d⟩ m hc
    simp only at hc
    subst hc
    exact ⟨rfl, rfl, rfl, rfl, rfl⟩
  · intro ct c d d' h
    cases c with
    | ok gce => exact absurd rfl (h gce)
    | exn m => rfl
    | timeout => rfl
  · rintro st et ct ⟨b, c, d⟩ hb
    simp only at hb
    subst hb
    exact ⟨rfl, rfl, rfl, rfl, rfl, rfl, rfl⟩
  · rintro st et ct ⟨b, c, d⟩ hs hc
    simp only at hs hc
    subst hc
    refine ⟨?_, ?_, ?_, ?_, ?_⟩ <;>
      simp [xgrammar_generate_profiled, xgrammar_generate, hs,
        PerfMetrics.from_timestamps, safe_subtract, safe_divide]

/-- Witness for the amended C5 at concrete environments: each non-success
compile outcome, in both engines, with the decode stage populated to show it
is ignored. -/
theorem compile_failure_terminates_early_witness :
    (guidance_generate_profiled 0 9 (fun _ => 0)
        { compile := .timeout,
          decode := .ok (some 1) (.ok "x") }).1.compile_status.code =
      .COMPILE_TIMEOUT ∧
    (guidance_generate_profiled 0 9 (fun _ => 0)
        { compile := .exn "bad",
          decode := .ok (some 1) (.ok "x") }).1.compile_status.code =
      .UNSUPPORTED_SCHEMA ∧
    guidance_generate { compile := .timeout, decode := .ok (some 1) (.ok "x") }
        (fun _ => 0) =
      guidance_generate { compile := .timeout, decode := .exn none "e" }
        (fun _ => 0) ∧
    (xgrammar_generate_profiled 0 9 (fun _ => 0)
        xg_env_compile_hangs).1.compile_status.code = .UNSUPPORTED_SCHEMA ∧
    (xgrammar_generate_profiled 0 9 (fun _ => 0)
        { behavior := .returns 1, compile := .timeout,
          decode := .ok [] "" }).1.compile_status.code = .COMPILE_TIMEOUT :=
  ⟨(compile_failure_terminates_early.1 0 9 _ _ rfl).1,
    (compile_failure_terminates_early.2.1 0 9 _ _ "bad" rfl).1,
    compile_failure_terminates_early.2.2.1 _ _ _ _ (fun _ h => by cases h),
    (compile_failure_terminates_early.2.2.2.1 0 9 _ _ rfl).1,
    (compile_failure_terminates_early.2.2.2.2 0 9 _ _ (by decide) rfl).1⟩

/-- Counterexample to C7 as stated: the probe's wall-clock alarm is
`COMPILATION_TIMEOUT` = 10 seconds, not a 15-second default: a compile
returning after 12 seconds — inside a 15-second alarm — is killed by the
actual alarm (exit code 2) and the sample is classified
UNSUPPORTED_SCHEMA. -/
theorem probe_alarm_is_ten_not_fifteen :
    COMPILATION_TIMEOUT ≠ 15 ∧ (12 : ℚ) < 15 ∧
    child_process COMPILATION_TIMEOUT (.returns 12) = .exited 2 ∧
    (xgrammar_generate xg_env_compile_12s
        (fun _ => 0)).1.compile_status.code = .UNSUPPORTED_SCHEMA := by
  decide

/-- The probe branch of `_generate` records UNSUPPORTED_SCHEMA whenever the
check reports failure. -/
theorem xgrammar_probe_fail_unsupported (env : XGrammarEnv)
    (ct : String → ℕ)
    (h : (check_grammar_safety COMPILATION_TIMEOUT env.behavior).success =
      false) :
    (xgrammar_generate env ct).1.compile_status.code =
      .UNSUPPORTED_SCHEMA := by
  simp only [xgrammar_generate, h, Bool.not_false, if_true]
  split <;> rfl

/-- Claim C7 as amended: the crash-isolation probe runs the compile step in
an isolated child process with a wall-clock alarm of `COMPILATION_TIMEOUT`
= 10 seconds (not 15); whenever the child is killed by a signal or exits
non-zero, the parent records CompileStatus UNSUPPORTED_SCHEMA — and the
parent itself never fails (both the probe and the classification are total
functions of the child's outcome). -/
theorem crash_probe_isolation :
    COMPILATION_TIMEOUT = 10 ∧
    (∀ (env : XGrammarEnv) (ct : String → ℕ) (sig : ℕ),
      child_process COMPILATION_TIMEOUT env.behavior = .signaled sig →
      (xgrammar_generate env ct).1.compile_status.code =
        .UNSUPPORTED_SCHEMA) ∧
    (∀ (env : XGrammarEnv) (ct : String → ℕ) (code : ℕ), code ≠ 0 →
      child_process COMPILATION_TIMEOUT env.behavior = .exited code →
      (xgrammar_generate env ct).1.compile_status.code =
        .UNSUPPORTED_SCHEMA) := by
  refine ⟨rfl, ?_, ?_⟩
  · intro env ct sig h
    exact xgrammar_probe_fail_unsupported env ct
      (by simp [check_grammar_safety, h])
  · intro env ct code hne h
    exact xgrammar_probe_fail_unsupported env ct
      (by simp [check_grammar_safety, h, beq_eq_false_iff_ne, hne])

/-- Witness for the amended C7: a signal-killed child (native crash) and a
non-zero exit (caught compiler exception) both yield UNSUPPORTED_SCHEMA. -/
theorem crash_probe_isolation_witness :
    (xgrammar_generate
        { behavior := .crashes 1 11, compile := .ok 0, decode := .ok [] "" }
        (fun _ => 0)).1.compile_status.code = .UNSUPPORTED_SCHEMA ∧
    (xgrammar_generate
        { behavior := .raises 1 "boom", compile := .ok 0,
          decode := .ok [] "" }
        (fun _ => 0)).1.compile_status.code = .UNSUPPORTED_SCHEMA :=
  ⟨crash_probe_isolation.2.1 _ (fun _ => 0) 11 (by decide),
    crash_probe_isolation.2.2 _ (fun _ => 0) 1 (by decide) (by decide)⟩
